import Mathlib

/-!
Verification of the `opencode-rate-limit` project-autopilot setup tool.

The repository consists of two Python scripts:

* `.opencode/tools/pa-setup.py` — scaffolds a project (git repo, directories,
  template files, a permissions document derived from a mode) and then runs a
  validator;
* `.opencode/tools/validate-pa-project.py` — checks that the scaffold is
  well-formed, accumulating all failures.

This file gives a shallow embedding: the pure string/template logic is
translated directly; the filesystem is modelled by an explicit `State` record,
and every setup step becomes a `State` transformer.  Subprocess output is
modelled as explicit string values.
-/

/-! ## Generic string machinery (Python `in`, `str.replace`, `str.strip`) -/

/-- Scan for an occurrence of `pat` in `l`, as Python's `pat in l` on the
underlying character lists. -/
def containsList (pat : List Char) : List Char → Bool
  | [] => pat.isPrefixOf []
  | c :: t => pat.isPrefixOf (c :: t) || containsList pat t

/-- Python's substring test `pat in s`. -/
def containsSubB (pat s : String) : Bool := containsList pat.data s.data

/-- Python's `s.replace(pat, rep)` on character lists: a single left-to-right
scan replacing non-overlapping occurrences.  Each step consumes at least one
character, so the scan position is structurally bounded by a fuel argument
(kept structural so that the kernel can evaluate concrete instances). -/
def replFuel (pat rep : List Char) : Nat → List Char → List Char
  | _, [] => []
  | 0, l => l
  | fuel + 1, c :: rest =>
    if pat.isPrefixOf (c :: rest) then
      rep ++ replFuel pat rep fuel (List.drop (pat.length - 1) rest)
    else
      c :: replFuel pat rep fuel rest

/-- Python's `s.replace(pat, rep)` on character lists. -/
def listReplace (pat rep l : List Char) : List Char :=
  replFuel pat rep l.length l

/-- Python's `s.replace(pat, rep)`. -/
def pyReplace (s pat rep : String) : String :=
  String.mk (listReplace pat.data rep.data s.data)

/-- The characters removed by Python's `str.strip()` (ASCII whitespace). -/
def isPyWhitespace (c : Char) : Bool :=
  c = ' ' || c = '\t' || c = '\n' || c = '\x0d' || c = '\x0b' || c = '\x0c'

/-- Python's `s.strip()`: drop leading and trailing whitespace. -/
def pyStrip (s : String) : String :=
  String.mk (((s.data.dropWhile isPyWhitespace).reverse.dropWhile isPyWhitespace).reverse)

theorem containsListSpec (pat : List Char) :
    ∀ l : List Char, containsList pat l = true ↔ pat <:+: l := by
  intro l
  induction l with
  | nil =>
    simp [containsList, List.isPrefixOf_iff_prefix, List.prefix_nil, List.infix_nil]
  | cons c t ih =>
    simp [containsList, List.isPrefixOf_iff_prefix, List.infix_cons_iff, ih]

theorem containsSubSpec (pat s : String) :
    containsSubB pat s = true ↔ pat.data <:+: s.data :=
  containsListSpec pat.data s.data

theorem extendInfixRight {α : Type} {x l r : List α} (h : x <:+: l) : x <:+: l ++ r := by
  obtain ⟨a, b, rfl⟩ := h
  exact ⟨a, b ++ r, by simp⟩

theorem extendInfixLeft {α : Type} {x l r : List α} (h : x <:+: r) : x <:+: l ++ r := by
  obtain ⟨a, b, rfl⟩ := h
  exact ⟨l ++ a, b, by simp⟩

theorem containsSubB_append_of_left {pat s : String} (t : String)
    (h : containsSubB pat s = true) : containsSubB pat (s ++ t) = true := by
  rw [containsSubSpec] at h ⊢
  rw [ String.data_append]
  exact extendInfixRight h

theorem containsSubB_append_of_right {pat t : String} (s : String)
    (h : containsSubB pat t = true) : containsSubB pat (s ++ t) = true := by
  rw [containsSubSpec] at h ⊢
  rw [ String.data_append]
  exact extendInfixLeft h

/-- After a non-overlapping left-to-right replacement of a nonempty, actually
occurring pattern, the replacement text occurs in the result. -/
theorem rep_infix_replFuel (pat rep : List Char) (hp : pat ≠ []) :
    ∀ (fuel : Nat) (l : List Char), l.length ≤ fuel → containsList pat l = true →
      rep <:+: replFuel pat rep fuel l := by
  intro fuel
  induction fuel with
  | zero =>
    intro l hl h
    have hnil : l = [] := List.length_eq_zero.mp (Nat.le_zero.mp hl)
    subst hnil
    simp [containsList, List.isPrefixOf_iff_prefix, List.prefix_nil, hp] at h
  | succ f ih =>
    intro l hl h
    rcases l with _ | ⟨c, rest⟩
    · simp [containsList, List.isPrefixOf_iff_prefix, List.prefix_nil, hp] at h
    · by_cases hpre : pat.isPrefixOf (c :: rest) = true
      · rw [replFuel, if_pos hpre]
        exact List.IsPrefix.isInfix ( List.prefix_append rep _)
      · rw [replFuel, if_neg hpre]
        rw [containsList, Bool.or_eq_true] at h
        rcases h with h | h
        · exact absurd h hpre
        · refine List.infix_cons (ih rest ?_ h)
          simp at hl
          omega

theorem rep_infix_listReplace (pat rep : List Char) (hp : pat ≠ [])
    (l : List Char) (h : containsList pat l = true) : rep <:+: listReplace pat rep l :=
  rep_infix_replFuel pat rep hp l.length l (Nat.le_refl _) h

/-! ## Template constants (verbatim from `pa-setup.py`) -/

def BACKLOG_TEMPLATE : String :=
  "# Project Autopilot Backlog\n\n| ID | Title | Type | Status | Spec | Updated |\n|----|-------|------|--------|------|---------|\n| TEMPLATE | Add first item via /pa-spark | - | NEW | - | 1970-01-01 |\n"

def GITIGNORE_TEMPLATE : String :=
  "# Project Autopilot\n__pycache__/\n*.pyc\n*.pyo\n*.pyd\n.pytest_cache/\n.mypy_cache/\n.ruff_cache/\n\n# Local tooling cache\n.opencode/tools/__pycache__/\n\n# macOS\n.DS_Store\nsession-ses_*.md\n\n# Secrets\n.env\n.env.*\n"

def VALIDATOR_CODE : String :=
  "#!/usr/bin/env python3\nfrom __future__ import annotations\n\nfrom pathlib import Path\n\n\n" ++
  "def _has_backlog_table(text: str) -> bool:\n    has_header = \"| ID | Title | Type | Status | Spec | Updated |\" in text\n    has_sep = \"|----\" in text\n    return has_header and has_sep\n\n\n" ++
  "def main() -> int:\n    project_root = Path(__file__).resolve().parents[2]\n    errors: list[str] = []\n\n" ++
  "    opencode_json = project_root / \"opencode.json\"\n    if not opencode_json.exists():\n        errors.append(\"Missing opencode.json in project root\")\n\n" ++
  "    ai_dir = project_root / \"ai\"\n    if not ai_dir.exists():\n        errors.append(\"Missing ai/ directory\")\n\n" ++
  "    for p in [ai_dir / \"features\", ai_dir / \"diary\"]:\n        if not p.exists():\n            errors.append(f\"Missing {p.relative_to(project_root)}\")\n\n" ++
  "    backlog = ai_dir / \"backlog.md\"\n    if not backlog.exists():\n        errors.append(\"Missing ai/backlog.md\")\n    else:\n        text = backlog.read_text(encoding=\"utf-8\", errors=\"replace\")\n        if not _has_backlog_table(text):\n            errors.append(\"ai/backlog.md does not contain the required backlog table header\")\n\n" ++
  "    if errors:\n        print(\"PA validation FAILED:\")\n        for e in errors:\n            print(f\"- {e}\")\n        return 2\n\n    print(\"PA validation OK\")\n    return 0\n\n\nif __name__ == \"__main__\":\n    raise SystemExit(main())\n"

/-! ## Permissions synthesizer (`opencode_permissions` in `pa-setup.py`) -/

/-- The `--mode` argument (`Mode = Literal["interactive", "project", "full"]`). -/
inductive Mode
  | interactive
  | project
  | full
deriving DecidableEq

/-- A permission decision value. -/
inductive Decision
  | allow
  | ask
deriving DecidableEq

/-- The permissions document returned by `opencode_permissions`: the `"bash"`
pattern map (a Python dict, modelled as an insertion-ordered association
list) plus the optional top-level `"external_directory"` entry. -/
structure PermissionsDoc where
  bash : List (String × Decision)
  external_directory : Option Decision
deriving DecidableEq

/-- Function `opencode_permissions(mode)` from `pa-setup.py`, verbatim. -/
def opencode_permissions : Mode → PermissionsDoc
  | .interactive =>
    { bash := [("*", .ask), ("git *", .allow), ("echo *", .allow), ("pwd", .allow),
        ("ls *", .allow), ("cat *", .allow), ("mkdir *", .allow), ("python3 *", .allow),
        ("python *", .allow), ("node *", .allow), ("npm *", .allow), ("pnpm *", .allow),
        ("yarn *", .allow), ("bun *", .allow), ("pytest *", .allow), ("go *", .allow),
        ("cargo *", .allow), ("make *", .allow), ("rm *", .ask), ("cp *", .ask),
        ("mv *", .ask)],
      external_directory := none }
  | .project =>
    { bash := [("*", .ask), ("git *", .allow), ("echo *", .allow), ("pwd", .allow),
        ("ls *", .allow), ("cat *", .allow), ("mkdir *", .allow), ("python3 *", .allow),
        ("python *", .allow), ("node *", .allow), ("npm *", .allow), ("pnpm *", .allow),
        ("yarn *", .allow), ("bun *", .allow), ("pytest *", .allow), ("go *", .allow),
        ("cargo *", .allow), ("make *", .allow), ("rm *", .allow), ("cp *", .allow),
        ("mv *", .allow)],
      external_directory := none }
  | .full =>
    { bash := [("*", .allow)], external_directory := some .allow }

/-- Modelled from the spec: the consumer of the permissions document is not
part of this repository; per the spec the wildcard `*` "acts as the default
decision for unmatched commands" while "more specific patterns override it by
exact match". -/
def decisionFor (bash : List (String × Decision)) (cmd : String) : Option Decision :=
  match bash.find? (fun p => p.1 != "*" && p.1 == cmd) with
  | some p => some p.2
  | none => bash.lookup "*"

/-! ## Serialized configuration documents -/

def decisionText : Decision → String
  | .allow => "allow"
  | .ask => "ask"

/-- One `"pattern": "decision"` line of the serialized bash map. -/
def bashEntryText (p : String × Decision) : String :=
  "      \"" ++ p.1 ++ "\": \"" ++ decisionText p.2 ++ "\""

/-- The serialized `"bash"` object, as `json.dumps(..., indent=2)` renders it
at nesting depth 2. -/
def renderBash (entries : List (String × Decision)) : String :=
  "\x7b\n" ++ String.intercalate ",\n" (entries.map bashEntryText) ++ "\n    \x7d"

/-- The exact text `write_opencode_json` writes to `opencode.json`:
`json.dumps(data, ensure_ascii=False, indent=2) + "\n"` for
`data = {"$schema": ..., "permission": opencode_permissions(mode)}`. -/
def opencodeJsonText (mode : Mode) : String :=
  let perm := opencode_permissions mode
  let inner :=
    match perm.external_directory with
    | some dec =>
      "\n    \"external_directory\": \"" ++ decisionText dec ++ "\",\n    \"bash\": " ++
        renderBash perm.bash
    | none => "\n    \"bash\": " ++ renderBash perm.bash
  "\x7b\n  \"$schema\": \"https://opencode.ai/config.json\",\n  \"permission\": \x7b" ++
    inner ++ "\n  \x7d\n\x7d\n"

/-- The text `write_profile` writes for a fresh profile:
`json.dumps({"name": name, "mode": mode}, ensure_ascii=False, indent=2) + "\n"`
(profile names are taken verbatim; JSON string escaping is not modelled since
no claim exercises names needing it). -/
def modeText : Mode → String
  | .interactive => "interactive"
  | .project => "project"
  | .full => "full"

def profileText (name : String) (mode : Mode) : String :=
  "\x7b\n  \"name\": \"" ++ name ++ "\",\n  \"mode\": \"" ++ modeText mode ++ "\"\n\x7d\n"

/-! ## Filesystem state

The paths the two scripts touch, as one record: a `Bool` for each directory
(and for the git repo / first-commit status), an `Option String` for each
file (`none` = absent, `some c` = present with content `c`), and a map for
the profile documents under `.opencode/config-profiles/`. -/

structure State where
  gitRepo : Bool
  hasCommit : Bool
  dotOpencodeTools : Bool
  configProfilesDir : Bool
  aiDir : Bool
  featuresDir : Bool
  diaryDir : Bool
  gitignore : Option String
  backlog : Option String
  validatorFile : Option String
  opencodeJson : Option String
  profiles : String → Option String

/-! ## The validator (`validate-pa-project.py`) -/

/-- Function `_has_backlog_table` from `validate-pa-project.py`. -/
def _has_backlog_table (text : String) : Bool :=
  containsSubB "| ID | Title | Type | Status | Spec | Updated |" text &&
    containsSubB "|----" text

/-- The ordered failure list accumulated by `main()` of
`validate-pa-project.py`. -/
def validateErrors (s : State) : List String :=
  (if s.opencodeJson.isSome then [] else ["Missing opencode.json in project root"]) ++
  (if s.aiDir then [] else ["Missing ai/ directory"]) ++
  (if s.featuresDir then [] else ["Missing ai/features"]) ++
  (if s.diaryDir then [] else ["Missing ai/diary"]) ++
  (match s.backlog with
   | none => ["Missing ai/backlog.md"]
   | some text =>
     if _has_backlog_table text then []
     else ["ai/backlog.md does not contain the required backlog table header"])

/-- The exit status of `main()` of `validate-pa-project.py`. -/
def validateExit (s : State) : Nat :=
  if validateErrors s = [] then 0 else 2

/-- The lines `main()` of `validate-pa-project.py` prints to stdout. -/
def validateStdout (s : State) : List String :=
  if validateErrors s = [] then ["PA validation OK"]
  else "PA validation FAILED:" :: (validateErrors s).map (fun e => "- " ++ e)

/-! ## Setup steps (`pa-setup.py`), as `State` transformers -/

/-- Step `ensure_git_repo`: report `existing` (no action) or run `git init`.  Only
the disk effect is modelled; git itself is assumed available. -/
def ensure_git_repo (s : State) : State :=
  if s.gitRepo then s else { s with gitRepo := true }

/-- Step `ensure_dirs`: `mkdir(parents=True, exist_ok=True)` for the five fixed
directories. -/
def ensure_dirs (s : State) : State :=
  { s with dotOpencodeTools := true, configProfilesDir := true, aiDir := true,
           featuresDir := true, diaryDir := true }

/-- Step `ensure_gitignore`: write the template only when the file is absent. -/
def ensure_gitignore (s : State) : State :=
  match s.gitignore with
  | some _ => s
  | none => { s with gitignore := some GITIGNORE_TEMPLATE }

/-- Step (a) of `write_backlog` on an existing file: the legacy-placeholder
rewrite (`content.replace("| _empty_ |", "| TEMPLATE |")`, applied only when
the marker is present). -/
def legacyRewrite (content : String) : String :=
  if containsSubB "| _empty_ |" content then
    pyReplace content "| _empty_ |" "| TEMPLATE |"
  else content

/-- The content `ai/backlog.md` holds after `write_backlog` runs, as a
function of its prior content (`none` = file absent). -/
def writeBacklogContent : Option String → String
  | none => BACKLOG_TEMPLATE
  | some content₀ =>
    let content := legacyRewrite content₀
    if containsSubB "| ID | Title | Type | Status | Spec | Updated |" content &&
        containsSubB "|----" content then
      content
    else
      BACKLOG_TEMPLATE ++ "\n---\n\n## Migrated content (legacy)\n\n" ++
        pyStrip content ++ "\n"

/-- Step `write_backlog` as a state transformer. -/
def write_backlog (s : State) : State :=
  { s with backlog := some (writeBacklogContent s.backlog) }

/-- Step `write_validator`: write the fixed validator source only when absent (the
best-effort `chmod` has no modelled effect). -/
def write_validator (s : State) : State :=
  match s.validatorFile with
  | some _ => s
  | none => { s with validatorFile := some VALIDATOR_CODE }

/-- Step `write_opencode_json`: unconditionally rewrite `opencode.json`. -/
def write_opencode_json (mode : Mode) (s : State) : State :=
  { s with opencodeJson := some (opencodeJsonText mode) }

/-- Step `write_profile`: first-write-wins per profile name. -/
def write_profile (name : String) (mode : Mode) (s : State) : State :=
  if (s.profiles name).isSome then s
  else { s with profiles := fun n => if n = name then some (profileText name mode) else s.profiles n }

/-- Step `run_validation`: run the validator subprocess (modelled by the canonical
validator semantics above), echo its stdout, and raise
`RuntimeError("Validation failed:\n" + (p.stderr or "").strip())` on a
non-zero exit.  The validator writes its report to stdout, so its captured
stderr is empty. -/
def run_validation (s : State) : Except String Unit :=
  if validateExit s = 0 then Except.ok ()
  else Except.error ("Validation failed:\n" ++ pyStrip "")

/-- The stdout line `run_validation` echoes: `print(p.stdout.strip())`. -/
def run_validation_echo (s : State) : String :=
  pyStrip (String.intercalate "\n" (validateStdout s))

/-- Step `maybe_initial_commit`: commit once when the repository has no commits
(the commit subprocess is modelled as succeeding; its failure would be
swallowed). -/
def maybe_initial_commit (s : State) : State :=
  if s.hasCommit then s else { s with hasCommit := true }

/-- The sequence of disk-writing steps of `main()` of `pa-setup.py`, before
validation. -/
def setupSteps (mode : Mode) (profile : Option String) (s : State) : State :=
  let s₆ := write_opencode_json mode
    (write_validator (write_backlog (ensure_gitignore (ensure_dirs (ensure_git_repo s)))))
  match profile with
  | some name => write_profile name mode s₆
  | none => s₆

/-- Function `main()` of `pa-setup.py`: run all steps, then validation; a
`RuntimeError` from validation aborts the run with its message. -/
def PaSetup.main (mode : Mode) (profile : Option String) (s : State) : Except String State :=
  let s₇ := setupSteps mode profile s
  match run_validation s₇ with
  | Except.error e => Except.error e
  | Except.ok () => Except.ok (maybe_initial_commit s₇)

/-! ## Properties of the backlog write logic -/

theorem hasTable_template : _has_backlog_table BACKLOG_TEMPLATE = true := by decide

/-- The inline header-and-separator check of `write_backlog` is the same test
as the validator's `_has_backlog_table`. -/
theorem hasTable_def (x : String) :
    (containsSubB "| ID | Title | Type | Status | Spec | Updated |" x &&
      containsSubB "|----" x) = _has_backlog_table x := rfl

/-- Whatever `ai/backlog.md` held before, after `write_backlog` it passes the
validator's table check. -/
theorem hasTable_writeBacklogContent (x : Option String) :
    _has_backlog_table (writeBacklogContent x) = true := by
  cases x with
  | none =>
    show _has_backlog_table BACKLOG_TEMPLATE = true
    exact hasTable_template
  | some c =>
    rw [writeBacklogContent]
    by_cases h : _has_backlog_table (legacyRewrite c) = true
    · rw [hasTable_def, if_pos h]
      exact h
    · rw [hasTable_def, if_neg h]
      rw [_has_backlog_table, Bool.and_eq_true]
      constructor
      · apply containsSubB_append_of_left
        apply containsSubB_append_of_left
        apply containsSubB_append_of_left
        decide
      · apply containsSubB_append_of_left
        apply containsSubB_append_of_left
        apply containsSubB_append_of_left
        decide

/-- Files whose (rewritten) content passes the table check are kept as-is. -/
theorem writeBacklogContent_of_table {c : String}
    (ht : _has_backlog_table (legacyRewrite c) = true) :
    writeBacklogContent (some c) = legacyRewrite c := by
  rw [writeBacklogContent, hasTable_def, if_pos ht]

/-- Marker-free files passing the table check are left untouched. -/
theorem writeBacklogContent_keep {c : String}
    (hm : containsSubB "| _empty_ |" c = false)
    (ht : _has_backlog_table c = true) :
    writeBacklogContent (some c) = c := by
  have hr : legacyRewrite c = c := by rw [legacyRewrite, if_neg (by simp [hm])]
  rw [writeBacklogContent, hasTable_def, hr, if_pos ht]

/-- Files failing the table check even after the marker rewrite are migrated
under a fresh canonical template. -/
theorem writeBacklogContent_migrate {c : String}
    (h : _has_backlog_table (legacyRewrite c) = false) :
    writeBacklogContent (some c) =
      BACKLOG_TEMPLATE ++ "\n---\n\n## Migrated content (legacy)\n\n" ++
        pyStrip (legacyRewrite c) ++ "\n" := by
  rw [writeBacklogContent, hasTable_def, if_neg (by simp [h])]

/-! ## Normal forms of the setup steps -/

theorem ensure_git_repo_eq (s : State) :
    ensure_git_repo s = { s with gitRepo := true } := by
  rw [ensure_git_repo]
  split
  next h => cases s; simp_all
  next => rfl

theorem ensure_gitignore_eq (s : State) :
    ensure_gitignore s = { s with gitignore := some (s.gitignore.getD GITIGNORE_TEMPLATE) } := by
  cases hg : s.gitignore with
  | some g => rw [ensure_gitignore, hg]; cases s; simp_all
  | none => rw [ensure_gitignore, hg]; cases s; simp_all

theorem write_validator_eq (s : State) :
    write_validator s = { s with validatorFile := some (s.validatorFile.getD VALIDATOR_CODE) } := by
  cases hv : s.validatorFile with
  | some v => rw [write_validator, hv]; cases s; simp_all
  | none => rw [write_validator, hv]; cases s; simp_all

theorem write_profile_eq (name : String) (mode : Mode) (s : State) :
    write_profile name mode s =
      { s with profiles := fun n =>
          if n = name then some ((s.profiles name).getD (profileText name mode))
          else s.profiles n } := by
  rw [write_profile]
  split
  next h =>
    obtain ⟨c, hc⟩ := Option.isSome_iff_exists.mp h
    cases s
    simp_all
    funext n
    by_cases hn : n = name
    · subst hn; simp [hc]
    · simp [hn]
  next h =>
    have hn : s.profiles name = none := Option.not_isSome_iff_eq_none.mp (by simpa using h)
    rw [hn]
    rfl

theorem maybe_initial_commit_eq (s : State) :
    maybe_initial_commit s = { s with hasCommit := true } := by
  rw [maybe_initial_commit]
  split
  next h => cases s; simp_all
  next => rfl

/-- The profile map left behind by `setupSteps`. -/
def profilesAfter (prof : Option String) (mode : Mode)
    (pf : String → Option String) : String → Option String :=
  match prof with
  | none => pf
  | some name => fun n =>
      if n = name then some ((pf name).getD (profileText name mode)) else pf n

/-- Closed form of the disk state after all write steps. -/
theorem setupSteps_eq (mode : Mode) (prof : Option String) (s : State) :
    setupSteps mode prof s =
      { gitRepo := true, hasCommit := s.hasCommit, dotOpencodeTools := true,
        configProfilesDir := true, aiDir := true, featuresDir := true, diaryDir := true,
        gitignore := some (s.gitignore.getD GITIGNORE_TEMPLATE),
        backlog := some (writeBacklogContent s.backlog),
        validatorFile := some (s.validatorFile.getD VALIDATOR_CODE),
        opencodeJson := some (opencodeJsonText mode),
        profiles := profilesAfter prof mode s.profiles } := by
  rcases prof with _ | name <;>
    simp only [setupSteps, ensure_git_repo_eq, ensure_dirs, ensure_gitignore_eq,
      write_backlog, write_validator_eq, write_opencode_json, write_profile_eq,
      profilesAfter]

theorem profilesAfter_self (prof : Option String) (mode : Mode)
    (pf : String → Option String)
    (h : ∀ n, prof = some n → (pf n).isSome = true) :
    profilesAfter prof mode pf = pf := by
  rcases prof with _ | name
  · rfl
  · funext n
    rw [profilesAfter]
    by_cases hn : n = name
    · subst hn
      obtain ⟨c, hc⟩ := Option.isSome_iff_exists.mp (h n rfl)
      simp [hc]
    · simp [hn]

/-- After the write steps, the validator finds nothing to report. -/
theorem validateErrors_setupSteps (mode : Mode) (prof : Option String) (s : State) :
    validateErrors (setupSteps mode prof s) = [] := by
  rw [setupSteps_eq]
  simp [validateErrors, hasTable_writeBacklogContent]

/-- Running `main()` of `pa-setup.py` always succeeds and returns the committed
post-step state: validation cannot fail right after the steps ran. -/
theorem main_eq_ok (mode : Mode) (prof : Option String) (s : State) :
    PaSetup.main mode prof s =
      Except.ok (maybe_initial_commit (setupSteps mode prof s)) := by
  rw [PaSetup.main]
  simp [run_validation, validateExit, validateErrors_setupSteps]

/-- States already set up (with a marker-free backlog) are fixed points of
`main()`. -/
theorem main_fixpoint (mode : Mode) (prof : Option String) (t : State)
    (h1 : t.gitRepo = true) (h2 : t.hasCommit = true)
    (h3 : t.dotOpencodeTools = true) (h4 : t.configProfilesDir = true)
    (h5 : t.aiDir = true) (h6 : t.featuresDir = true) (h7 : t.diaryDir = true)
    (h8 : ∃ g, t.gitignore = some g)
    (h9 : ∃ b, t.backlog = some b ∧ containsSubB "| _empty_ |" b = false ∧
          _has_backlog_table b = true)
    (h10 : ∃ v, t.validatorFile = some v)
    (h11 : t.opencodeJson = some (opencodeJsonText mode))
    (h12 : ∀ n, prof = some n → (t.profiles n).isSome = true) :
    PaSetup.main mode prof t = Except.ok t := by
  obtain ⟨g, hg⟩ := h8
  obtain ⟨b, hb, hbm, hbt⟩ := h9
  obtain ⟨v, hv⟩ := h10
  rw [main_eq_ok, setupSteps_eq, maybe_initial_commit_eq]
  congr 1
  obtain ⟨gr, hc, d1, d2, ai, fe, di, gi, bl, vf, oj, pf⟩ := t
  simp only at h1 h2 h3 h4 h5 h6 h7 hg hb hv h11 h12
  subst h1 h2 h3 h4 h5 h6 h7 hg hb hv h11
  simp [writeBacklogContent_keep hbm hbt, profilesAfter_self prof mode pf h12]

/-! ## Claim theorems -/

/-- C1: the permissions synthesizer is a pure total function matching the
policy table: `interactive` maps `*`, `rm *`, `cp *`, `mv *` to ask and every
other (build/runtime tool) pattern to allow, with no external-directory
grant; `project` is the same with `rm *`/`cp *`/`mv *` allowed; `full` is
exactly a blanket wildcard allow plus the external-directory grant, with no
per-pattern entries. -/
theorem C1_permissions_table :
    ((opencode_permissions Mode.interactive).bash.lookup "*" = some Decision.ask ∧
     (opencode_permissions Mode.interactive).bash.lookup "rm *" = some Decision.ask ∧
     (opencode_permissions Mode.interactive).bash.lookup "cp *" = some Decision.ask ∧
     (opencode_permissions Mode.interactive).bash.lookup "mv *" = some Decision.ask ∧
     (∀ p ∈ (opencode_permissions Mode.interactive).bash,
        p.1 ∉ (["*", "rm *", "cp *", "mv *"] : List String) → p.2 = Decision.allow) ∧
     (opencode_permissions Mode.interactive).external_directory = none) ∧
    ((opencode_permissions Mode.project).bash.lookup "*" = some Decision.ask ∧
     (opencode_permissions Mode.project).bash.lookup "rm *" = some Decision.allow ∧
     (opencode_permissions Mode.project).bash.lookup "cp *" = some Decision.allow ∧
     (opencode_permissions Mode.project).bash.lookup "mv *" = some Decision.allow ∧
     (∀ p ∈ (opencode_permissions Mode.project).bash,
        p.1 ∉ (["*", "rm *", "cp *", "mv *"] : List String) → p.2 = Decision.allow) ∧
     (opencode_permissions Mode.project).external_directory = none) ∧
    opencode_permissions Mode.full =
      { bash := [("*", Decision.allow)], external_directory := some Decision.allow } := by
  decide

/-- C6: the validator's backlog table check passes exactly when the canonical
header substring and the separator marker both occur anywhere in the text,
in any order; in particular a file with the separator row before the header
still passes. -/
theorem C6_order_insensitive :
    (∀ text : String,
      _has_backlog_table text = true ↔
        ("| ID | Title | Type | Status | Spec | Updated |".data <:+: text.data ∧
         "|----".data <:+: text.data)) ∧
    _has_backlog_table "|----|\n| ID | Title | Type | Status | Spec | Updated |" = true := by
  constructor
  · intro text
    rw [_has_backlog_table, Bool.and_eq_true, containsSubSpec, containsSubSpec]
  · decide

/-- C7: for every mode the synthesized bash map contains the wildcard `*`;
under the spec's resolution semantics (`decisionFor`) the wildcard is the
default for commands matched by no specific pattern, so every command gets a
decision. -/
theorem C7_wildcard_default :
    ∀ (mode : Mode) (cmd : String),
      (∃ d, (opencode_permissions mode).bash.lookup "*" = some d) ∧
      (decisionFor (opencode_permissions mode).bash cmd).isSome = true ∧
      ((∀ p ∈ (opencode_permissions mode).bash, p.1 ≠ "*" → p.1 ≠ cmd) →
        decisionFor (opencode_permissions mode).bash cmd =
          (opencode_permissions mode).bash.lookup "*") := by
  intro mode cmd
  refine ⟨?_, ?_, ?_⟩
  · cases mode <;> exact ⟨_, rfl⟩
  · rw [decisionFor]
    cases hf : (opencode_permissions mode).bash.find? (fun p => p.1 != "*" && p.1 == cmd) with
    | some p => simp
    | none => cases mode <;> decide
  · intro h
    have hf : (opencode_permissions mode).bash.find? (fun p => p.1 != "*" && p.1 == cmd) = none := by
      apply List.find?_eq_none.mpr
      intro x hx
      simp only [Bool.and_eq_true, bne_iff_ne, beq_iff_eq]
      rintro ⟨hne, he⟩
      exact h x hx hne he
    rw [decisionFor, hf]

theorem C7_witness :
    decisionFor (opencode_permissions Mode.interactive).bash "curl example.com" =
      (opencode_permissions Mode.interactive).bash.lookup "*" :=
  (C7_wildcard_default Mode.interactive "curl example.com").2.2 (by decide)

/-- The three patterns on which `interactive` and `project` differ. -/
def rcmPatterns : List String := ["rm *", "cp *", "mv *"]

/-- Demote the three mutating-command patterns to ask (turns the `project`
map into the `interactive` one). -/
def overrideAsk (p : String × Decision) : String × Decision :=
  if p.1 ∈ rcmPatterns then (p.1, Decision.ask) else p

theorem lookup_map_overrideAsk (l : List (String × Decision)) (k : String)
    (hk : k ∉ rcmPatterns) : (l.map overrideAsk).lookup k = l.lookup k := by
  induction l with
  | nil => rfl
  | cons a t ih =>
    obtain ⟨ka, va⟩ := a
    rw [List.map_cons]
    by_cases h : ka ∈ rcmPatterns
    · have hover : overrideAsk (ka, va) = (ka, Decision.ask) := by
        rw [overrideAsk, if_pos h]
      have hne : (k == ka) = false := by
        rw [beq_eq_false_iff_ne]
        intro he
        exact hk (he ▸ h)
      rw [hover]
      simp only [List.lookup, hne, ih]
    · have hover : overrideAsk (ka, va) = (ka, va) := by
        rw [overrideAsk, if_neg h]
      rw [hover]
      simp only [List.lookup, ih]

/-- C10: the `interactive` and `project` permission maps agree everywhere
except exactly at `rm *`, `cp *`, `mv *` (ask vs allow): same key sequence,
same wildcard (ask), no external-directory grant in either, and equal
lookups at every other key. -/
theorem C10_interactive_project_diff :
    (∀ k : String, k ∉ rcmPatterns →
      (opencode_permissions Mode.interactive).bash.lookup k =
        (opencode_permissions Mode.project).bash.lookup k) ∧
    (opencode_permissions Mode.interactive).bash =
      (opencode_permissions Mode.project).bash.map overrideAsk ∧
    (opencode_permissions Mode.interactive).bash.map Prod.fst =
      (opencode_permissions Mode.project).bash.map Prod.fst ∧
    (opencode_permissions Mode.interactive).bash.lookup "*" = some Decision.ask ∧
    (opencode_permissions Mode.project).bash.lookup "*" = some Decision.ask ∧
    (opencode_permissions Mode.interactive).bash.lookup "rm *" = some Decision.ask ∧
    (opencode_permissions Mode.project).bash.lookup "rm *" = some Decision.allow ∧
    (opencode_permissions Mode.interactive).bash.lookup "cp *" = some Decision.ask ∧
    (opencode_permissions Mode.project).bash.lookup "cp *" = some Decision.allow ∧
    (opencode_permissions Mode.interactive).bash.lookup "mv *" = some Decision.ask ∧
    (opencode_permissions Mode.project).bash.lookup "mv *" = some Decision.allow ∧
    (opencode_permissions Mode.interactive).external_directory = none ∧
    (opencode_permissions Mode.project).external_directory = none := by
  refine ⟨?_, by decide, by decide, by decide, by decide, by decide, by decide,
    by decide, by decide, by decide, by decide, by decide, by decide⟩
  intro k hk
  rw [show (opencode_permissions Mode.interactive).bash =
    (opencode_permissions Mode.project).bash.map overrideAsk from by decide]
  exact lookup_map_overrideAsk _ k hk

theorem C10_witness :
    (opencode_permissions Mode.interactive).bash.lookup "git *" =
      (opencode_permissions Mode.project).bash.lookup "git *" :=
  C10_interactive_project_diff.1 "git *" (by decide)

set_option maxRecDepth 10000 in
/-- C2 counterexample: a pre-existing backlog `"a\n\n"` (no marker, no
canonical header) is migrated, but its exact byte content does NOT reappear
in the migrated file — `content.strip()` removed the trailing newlines — so
the migrated file is not a byte superset of the original. -/
theorem C2_counterexample :
    _has_backlog_table "a\n\n" = false ∧
    legacyRewrite "a\n\n" = "a\n\n" ∧
    containsSubB "a\n\n" (writeBacklogContent (some "a\n\n")) = false := by
  refine ⟨by decide, by decide, by decide⟩

/-- C2 (amended): for every pre-existing backlog that (after the
legacy-placeholder rewrite) fails the header/separator check, the written
file is the canonical template, the migration heading, then the
whitespace-STRIPPED rewritten original and a newline; that stripped text
occurs verbatim after the heading, and the result passes the validator's
table check.  (The exact original bytes need not reappear: leading/trailing
whitespace is removed by `content.strip()`.) -/
theorem C2_migration_superset (content : String)
    (h : _has_backlog_table (legacyRewrite content) = false) :
    writeBacklogContent (some content) =
      BACKLOG_TEMPLATE ++ "\n---\n\n## Migrated content (legacy)\n\n" ++
        pyStrip (legacyRewrite content) ++ "\n" ∧
    (pyStrip (legacyRewrite content)).data <:+: (writeBacklogContent (some content)).data ∧
    _has_backlog_table (writeBacklogContent (some content)) = true := by
  refine ⟨writeBacklogContent_migrate h, ?_, hasTable_writeBacklogContent _⟩
  rw [writeBacklogContent_migrate h]
  rw [ String.data_append,  String.data_append,  String.data_append]
  exact extendInfixRight (extendInfixLeft ( List.infix_refl _))

theorem C2_amended_witness :
    writeBacklogContent (some "hello world") =
      BACKLOG_TEMPLATE ++ "\n---\n\n## Migrated content (legacy)\n\n" ++
        pyStrip (legacyRewrite "hello world") ++ "\n" :=
  (C2_migration_superset "hello world" (by decide)).1

set_option maxRecDepth 10000 in
/-- C5 counterexample: in `"| _empty_ | _empty_ |"` the two marker
occurrences overlap on the shared `|`; the single left-to-right scan of
`str.replace` only rewrites the first, and the replacement recreates the
marker, so the persisted file still contains `"| _empty_ |"` — not every
occurrence was replaced. -/
theorem C5_counterexample :
    containsSubB "| _empty_ |" "| _empty_ | _empty_ |" = true ∧
    legacyRewrite "| _empty_ | _empty_ |" = "| TEMPLATE | _empty_ |" ∧
    containsSubB "| _empty_ |" (legacyRewrite "| _empty_ | _empty_ |") = true ∧
    containsSubB "| _empty_ |" (writeBacklogContent (some "| _empty_ | _empty_ |")) = true := by
  refine ⟨by decide, by decide, by decide, by decide⟩

/-- C5 (amended): for every backlog containing the legacy marker, the rewrite
step is exactly Python's single left-to-right non-overlapping
`replace("| _empty_ |", "| TEMPLATE |")` — the current placeholder token
occurs in the rewritten text, though overlapping marker occurrences can
survive the scan — and any file that after this rewrite contains both the
canonical header and the separator is not mutated further. -/
theorem C5_legacy_rewrite :
    (∀ content : String, containsSubB "| _empty_ |" content = true →
      legacyRewrite content = pyReplace content "| _empty_ |" "| TEMPLATE |" ∧
      containsSubB "| TEMPLATE |" (legacyRewrite content) = true) ∧
    (∀ content : String, _has_backlog_table (legacyRewrite content) = true →
      writeBacklogContent (some content) = legacyRewrite content) := by
  constructor
  · intro content hm
    have he : legacyRewrite content = pyReplace content "| _empty_ |" "| TEMPLATE |" := by
      rw [legacyRewrite, if_pos hm]
    refine ⟨he, ?_⟩
    rw [he, containsSubSpec]
    exact rep_infix_listReplace _ _ (by decide) _ hm
  · intro content ht
    exact writeBacklogContent_of_table ht

theorem C5_amended_witness :
    containsSubB "| TEMPLATE |" (legacyRewrite "x\n| _empty_ | item |\n") = true :=
  (C5_legacy_rewrite.1 "x\n| _empty_ | item |\n" (by decide)).2

/-- C3: the validator accumulates every failure in a fixed order: each failed
check contributes its message regardless of the other checks, the error list
is always an ordered sublist of the six possible messages, a non-empty list
yields the FAILED banner with one bullet per item and exit status 2, and an
empty list yields the OK banner and exit status 0. -/
theorem C3_validator_accumulates (s : State) :
    (validateErrors s ≠ [] →
      validateExit s = 2 ∧
      validateStdout s =
        "PA validation FAILED:" :: (validateErrors s).map (fun e => "- " ++ e)) ∧
    (validateErrors s = [] →
      validateExit s = 0 ∧ validateStdout s = ["PA validation OK"]) ∧
    (s.opencodeJson = none → "Missing opencode.json in project root" ∈ validateErrors s) ∧
    (s.aiDir = false → "Missing ai/ directory" ∈ validateErrors s) ∧
    (s.featuresDir = false → "Missing ai/features" ∈ validateErrors s) ∧
    (s.diaryDir = false → "Missing ai/diary" ∈ validateErrors s) ∧
    (s.backlog = none → "Missing ai/backlog.md" ∈ validateErrors s) ∧
    (∀ t, s.backlog = some t → _has_backlog_table t = false →
      "ai/backlog.md does not contain the required backlog table header" ∈ validateErrors s) ∧
    List.Sublist (validateErrors s)
      ["Missing opencode.json in project root", "Missing ai/ directory",
       "Missing ai/features", "Missing ai/diary", "Missing ai/backlog.md",
       "ai/backlog.md does not contain the required backlog table header"] := by
  obtain ⟨gr, hc, d1, d2, ai, fe, di, gi, bl, vf, oj, pf⟩ := s
  refine ⟨?_, ?_, ?_, ?_, ?_, ?_, ?_, ?_, ?_⟩
  · intro h
    exact ⟨by rw [validateExit, if_neg h], by rw [validateStdout, if_neg h]⟩
  · intro h
    exact ⟨by rw [validateExit, if_pos h], by rw [validateStdout, if_pos h]⟩
  · intro h
    subst h
    simp [validateErrors]
  · intro h
    subst h
    simp [validateErrors]
  · intro h
    subst h
    simp [validateErrors]
  · intro h
    subst h
    simp [validateErrors]
  · intro h
    subst h
    simp [validateErrors]
  · intro t ht hf
    subst ht
    simp [validateErrors, hf]
  · rw [validateErrors]
    have h1 : List.Sublist
        (if Option.isSome oj then [] else ["Missing opencode.json in project root"])
        ["Missing opencode.json in project root"] := by
      split <;> simp
    have h2 : List.Sublist (if ai then [] else ["Missing ai/ directory"])
        ["Missing ai/ directory"] := by
      split <;> simp
    have h3 : List.Sublist (if fe then [] else ["Missing ai/features"])
        ["Missing ai/features"] := by
      split <;> simp
    have h4 : List.Sublist (if di then [] else ["Missing ai/diary"])
        ["Missing ai/diary"] := by
      split <;> simp
    have h5 : List.Sublist
        (match bl with
         | none => ["Missing ai/backlog.md"]
         | some text =>
           if _has_backlog_table text then []
           else ["ai/backlog.md does not contain the required backlog table header"])
        ["Missing ai/backlog.md",
         "ai/backlog.md does not contain the required backlog table header"] := by
      rcases bl with _ | t
      · decide
      · by_cases h : _has_backlog_table t = true <;> simp [h]
    simpa using List.Sublist.append h1 (List.Sublist.append h2
      (List.Sublist.append h3 (List.Sublist.append h4 h5)))

/-- A scaffold missing both `ai/backlog.md` and `ai/features/`. -/
def demoMissingState : State :=
  { gitRepo := true, hasCommit := true, dotOpencodeTools := true,
    configProfilesDir := true, aiDir := true, featuresDir := false, diaryDir := true,
    gitignore := none, backlog := none, validatorFile := none,
    opencodeJson := some "x", profiles := fun _ => none }

theorem C3_witness :
    "Missing ai/features" ∈ validateErrors demoMissingState ∧
    "Missing ai/backlog.md" ∈ validateErrors demoMissingState ∧
    validateExit demoMissingState = 2 := by
  have h := C3_validator_accumulates demoMissingState
  exact ⟨h.2.2.2.2.1 rfl, h.2.2.2.2.2.2.1 rfl, (h.1 (by decide)).1⟩

/-- C8: the ignore-rules file, the validator script and each profile record
follow first-write-wins: an existing file leaves the whole state unchanged,
and the template is written only when the file is absent. -/
theorem C8_first_write_wins (s : State) :
    (∀ c, s.gitignore = some c → ensure_gitignore s = s) ∧
    (s.gitignore = none → (ensure_gitignore s).gitignore = some GITIGNORE_TEMPLATE) ∧
    (∀ c, s.validatorFile = some c → write_validator s = s) ∧
    (s.validatorFile = none → (write_validator s).validatorFile = some VALIDATOR_CODE) ∧
    (∀ name mode c, s.profiles name = some c → write_profile name mode s = s) ∧
    (∀ name mode, s.profiles name = none →
      (write_profile name mode s).profiles name = some (profileText name mode)) := by
  refine ⟨?_, ?_, ?_, ?_, ?_, ?_⟩
  · intro c h
    rw [ensure_gitignore, h]
  · intro h
    rw [ensure_gitignore, h]
  · intro c h
    rw [write_validator, h]
  · intro h
    rw [write_validator, h]
  · intro name mode c h
    rw [write_profile, if_pos (by rw [h]; rfl)]
  · intro name mode h
    rw [write_profile, if_neg (by rw [h]; simp)]
    simp

/-- A state whose template files all pre-exist with user content. -/
def demoUserState : State :=
  { gitRepo := true, hasCommit := false, dotOpencodeTools := true,
    configProfilesDir := true, aiDir := true, featuresDir := true, diaryDir := true,
    gitignore := some "my rules", backlog := some "my backlog",
    validatorFile := some "my validator", opencodeJson := none,
    profiles := fun _ => some "existing profile" }

theorem C8_witness :
    ensure_gitignore demoUserState = demoUserState ∧
    write_validator demoUserState = demoUserState ∧
    write_profile "team" Mode.project demoUserState = demoUserState := by
  have h := C8_first_write_wins demoUserState
  exact ⟨h.1 "my rules" rfl, h.2.2.1 "my validator" rfl,
    h.2.2.2.2.1 "team" Mode.project "existing profile" rfl⟩

set_option maxRecDepth 10000 in
/-- C9 counterexample: when validation fails, the abort message is
`"Validation failed:\n" + (p.stderr or "").strip()`, and the validator writes
its report to stdout, not stderr — so the `RuntimeError` explanation does NOT
contain the enumerated missing-item messages (they only appear in the
separately echoed stdout). -/
theorem C9_counterexample :
    run_validation demoMissingState = Except.error "Validation failed:\n" ∧
    "Missing ai/backlog.md" ∈ validateErrors demoMissingState ∧
    containsSubB "Missing ai/backlog.md" "Validation failed:\n" = false ∧
    containsSubB "Missing ai/backlog.md" (run_validation_echo demoMissingState) = true := by
  refine ⟨rfl, by decide, by decide, by decide⟩

/-- C9 (amended): a non-zero validator exit makes the setup's validation step
raise an error whose explanation is `"Validation failed:"` plus the
validator's captured standard-error text — which is empty, the enumerated
missing-item messages going to the validator's standard output, echoed
separately by the setup — while the validator itself does not raise: it
prints the FAILED banner with one bullet per item and returns exit code 2. -/
theorem C9_validation_failure (s : State) (h : validateExit s ≠ 0) :
    run_validation s = Except.error ("Validation failed:\n" ++ pyStrip "") ∧
    validateExit s = 2 ∧
    validateStdout s =
      "PA validation FAILED:" :: (validateErrors s).map (fun e => "- " ++ e) := by
  have hne : validateErrors s ≠ [] := by
    intro he
    exact h (by rw [validateExit, if_pos he])
  refine ⟨?_, ?_, ?_⟩
  · rw [run_validation, if_neg h]
  · rw [validateExit, if_neg hne]
  · rw [validateStdout, if_neg hne]

theorem C9_amended_witness :
    run_validation demoMissingState = Except.error ("Validation failed:\n" ++ pyStrip "") ∧
    validateExit demoMissingState = 2 :=
  ⟨(C9_validation_failure demoMissingState (by decide)).1,
   (C9_validation_failure demoMissingState (by decide)).2.1⟩

/-- A backlog whose legacy-marker occurrences overlap, together with a
canonical header, so `write_backlog` keeps the (still marker-bearing)
rewritten file. -/
def overlapBacklog : String :=
  "| ID | Title | Type | Status | Spec | Updated |\n|----|\n| _empty_ | _empty_ |\n"

/-- A fully scaffolded state holding `overlapBacklog`. -/
def overlapState : State :=
  { gitRepo := true, hasCommit := true, dotOpencodeTools := true,
    configProfilesDir := true, aiDir := true, featuresDir := true, diaryDir := true,
    gitignore := some GITIGNORE_TEMPLATE, backlog := some overlapBacklog,
    validatorFile := some VALIDATOR_CODE,
    opencodeJson := some (opencodeJsonText Mode.project), profiles := fun _ => none }

set_option maxRecDepth 100000 in
/-- C4 counterexample: starting from `overlapState`, the first run rewrites
the backlog's overlapping legacy markers into text that still contains a
marker; the second run with the same mode rewrites `ai/backlog.md` AGAIN
(the two runs' backlogs differ) even though `opencode.json` is unchanged —
so the second run does not leave everything but `opencode.json` unchanged. -/
theorem C4_counterexample :
    ((PaSetup.main Mode.project none overlapState).toOption.bind
      (fun s1 => (PaSetup.main Mode.project none s1).toOption.map
        (fun s2 => (s1.backlog == s2.backlog, s1.opencodeJson == s2.opencodeJson)))) =
      some (false, true) := by
  decide

/-- C4 (amended): the setup procedure always succeeds, and it is idempotent
up to `opencode.json` for every starting state whose post-run backlog no
longer contains the legacy placeholder marker: running again with the same
mode returns the identical state, with `opencode.json` holding the mode's
document (unconditionally rewritten to the same content).  The proviso is
needed because the legacy-marker rewrite is not idempotent when marker
occurrences overlap. -/
theorem C4_idempotent_modulo_marker (mode : Mode) (prof : Option String) (s s' : State)
    (h : PaSetup.main mode prof s = Except.ok s')
    (hm : ∀ c, s'.backlog = some c → containsSubB "| _empty_ |" c = false) :
    PaSetup.main mode prof s' = Except.ok s' ∧
    s'.opencodeJson = some (opencodeJsonText mode) := by
  rw [main_eq_ok] at h
  have hs' : s' = maybe_initial_commit (setupSteps mode prof s) := by
    injection h with h2
    exact h2.symm
  subst hs'
  rw [maybe_initial_commit_eq, setupSteps_eq] at hm ⊢
  constructor
  · apply main_fixpoint
    · rfl
    · rfl
    · rfl
    · rfl
    · rfl
    · rfl
    · rfl
    · exact ⟨_, rfl⟩
    · exact ⟨writeBacklogContent s.backlog, rfl, hm _ rfl,
        hasTable_writeBacklogContent _⟩
    · exact ⟨_, rfl⟩
    · rfl
    · intro n hn
      subst hn
      simp [profilesAfter]
  · rfl

/-- A completely fresh directory. -/
def emptyState : State :=
  { gitRepo := false, hasCommit := false, dotOpencodeTools := false,
    configProfilesDir := false, aiDir := false, featuresDir := false, diaryDir := false,
    gitignore := none, backlog := none, validatorFile := none, opencodeJson := none,
    profiles := fun _ => none }

/-- The state a first `interactive`-mode run produces from `emptyState`. -/
def freshSetupState : State :=
  { gitRepo := true, hasCommit := true, dotOpencodeTools := true,
    configProfilesDir := true, aiDir := true, featuresDir := true, diaryDir := true,
    gitignore := some GITIGNORE_TEMPLATE, backlog := some BACKLOG_TEMPLATE,
    validatorFile := some VALIDATOR_CODE,
    opencodeJson := some (opencodeJsonText Mode.interactive), profiles := fun _ => none }

set_option maxRecDepth 100000 in
theorem C4_amended_witness :
    PaSetup.main Mode.interactive none freshSetupState = Except.ok freshSetupState :=
  (C4_idempotent_modulo_marker Mode.interactive none emptyState freshSetupState rfl
    (fun c hc => by
      have hc' : some BACKLOG_TEMPLATE = some c := hc
      injection hc' with h
      rw [← h]
      decide)).1
